import Mathlib

/-!
Verification of the snapshot lifecycle and isolation protocol of a
copy-on-write radix-trie store (`src/snapshot.rs`).

The `Snapshot` struct and all of its methods are embedded directly from
`src/snapshot.rs`.  The Trie Core (`Node`, `Node::insert_recurse`,
`Node::get_recurse`, `Node::ts`) and the reader handle
(`IterationPointer`) live in other modules of the repository that are not
part of the source tree given here; those are modelled from the spec, as
marked on each definition.

Rust `u64` fields are embedded as `Nat` with arithmetic taken explicitly
modulo `2 ^ 64` where the source uses wrapping atomic operations
(`fetch_add` / `fetch_sub` on `AtomicU64`).  `&mut self` methods that
return `Result<T, TrieError>` are embedded as explicit state passing:
the method returns `Except TrieError T × Snapshot V`, where the returned
snapshot is the post-state (equal to the input state when the method
returned early with an error, since the source mutates nothing on those
paths).
-/

/-- The error type of the trie (`TrieError` in `src/art.rs`, consumed by
`src/snapshot.rs`).  Only the variants used by the snapshot module and the
spec's error taxonomy are modelled. -/
inductive TrieError where
  | SnapshotAlreadyClosed
  | SnapshotReadersNotClosed
  | KeyNotFound
deriving DecidableEq, Repr

/-- Modelled from the spec: the Trie Core's immutable node (`Node` in
`src/art.rs`, not under `src/`).  It carries the timestamp recorded on the
node (`Node::ts`) and the version history of entries reachable from it,
newest first; keys are byte strings, embedded as `List Nat`. -/
structure Node (V : Type) where
  ts : Nat
  entries : List (List Nat × V × Nat)
deriving DecidableEq, Repr

/-- Modelled from the spec: the key set reachable from a node — one key per
write recorded in the graph. -/
def Node.keys {V : Type} (n : Node V) : List (List Nat) :=
  n.entries.map (fun e => e.1)

/-- Modelled from the spec: `Node::insert_recurse` (`src/art.rs`, not under
`src/`) — the Trie Core's copy-on-write insert.  It never mutates the node
it is given; it returns a fresh root recording the write at the next
timestamp (the spec fixes the contract that the timestamp recorded on the
root grows by exactly one per successful insert), paired with the value the
key previously had, if any.  `commit_ts` and `depth` are the arguments the
snapshot passes down (`self.ts` and `0`); the model keeps them for
signature fidelity. -/
def Node.insert_recurse {V : Type} (cur_node : Node V) (key : List Nat) (value : V)
    (commit_ts : Nat) (depth : Nat) : Except TrieError (Node V × Option V) :=
  let _ := commit_ts
  let _ := depth
  Except.ok
    ({ ts := cur_node.ts + 1,
       entries := (key, value, cur_node.ts + 1) :: cur_node.entries },
     (cur_node.entries.find? (fun e => decide (e.1 = key))).map (fun e => e.2.1))

/-- Modelled from the spec: `Node::get_recurse` (`src/art.rs`, not under
`src/`) — bounded lookup: the most recent value written to `key` with a
commit timestamp `≤ ts`, or a not-found error. -/
def Node.get_recurse {V : Type} (n : Node V) (key : List Nat) (ts : Nat) :
    Except TrieError (List Nat × V × Nat) :=
  match n.entries.find? (fun e => decide (e.1 = key) && decide (e.2.2 ≤ ts)) with
  | some e => Except.ok e
  | none => Except.error TrieError.KeyNotFound

/-- Modelled from the spec: `IterationPointer` (`src/iter.rs`, not under
`src/`) — a reader handle bound at construction to a specific node graph
and a reader id (`IterationPointer::new(root, reader_id)`). -/
structure IterationPointer (V : Type) where
  root : Node V
  id : Nat
deriving DecidableEq, Repr

/-- Modelled from the spec: `IterationPointer::iter` produces the entries of
the bound root (a lazy, restartable traversal of the bound, immutable
graph); only the enumerated set matters here. -/
def IterationPointer.iter {V : Type} (p : IterationPointer V) :
    List (List Nat × V × Nat) :=
  p.root.entries

/-- Modelled from the spec: the key set an `IterationPointer` enumerates. -/
def IterationPointer.keys {V : Type} (p : IterationPointer V) : List (List Nat) :=
  (p.iter).map (fun e => e.1)

/-- Embeds `Snapshot` (`src/snapshot.rs`, lines 12-19).  `readers` is the
`HashSet<u64>` of reader ids, `max_active_readers` the `AtomicU64` that
serves both as the reader-id source and as the active-reader count, `ts`
the snapshot's own timestamp field captured at creation. -/
structure Snapshot (V : Type) where
  id : Nat
  ts : Nat
  root : Node V
  readers : Finset Nat
  max_active_readers : Nat
  closed : Bool
deriving DecidableEq

/-- Embeds `Snapshot::new` (`src/snapshot.rs`, lines 23-32). -/
def Snapshot.new {V : Type} (id : Nat) (root : Node V) (ts : Nat) : Snapshot V :=
  { id := id, ts := ts, root := root, readers := ∅,
    max_active_readers := 0, closed := false }

/-- Embeds `Snapshot::is_closed` (`src/snapshot.rs`, lines 67-72): error iff the
`closed` flag is set.  A `&self` method, so no state is threaded. -/
def Snapshot.is_closed {V : Type} (s : Snapshot V) : Except TrieError Unit :=
  if s.closed then Except.error TrieError.SnapshotAlreadyClosed else Except.ok ()

/-- Embeds `Snapshot::insert` (`src/snapshot.rs`, lines 35-51), factored over the
copy-on-write insert function `f` it delegates to, exactly as the source
delegates to `Node::insert_recurse`: check the closed flag, run the
copy-on-write insert at `self.ts`, depth `0`, and on success rebind only
the root. -/
def Snapshot.insertWith {V : Type}
    (f : Node V → List Nat → V → Nat → Nat → Except TrieError (Node V × Option V))
    (s : Snapshot V) (key : List Nat) (value : V) :
    Except TrieError Unit × Snapshot V :=
  match s.is_closed with
  | Except.error e => (Except.error e, s)
  | Except.ok _ =>
    match f s.root key value s.ts 0 with
    | Except.error err => (Except.error err, s)
    | Except.ok (new_node, _) => (Except.ok (), { s with root := new_node })

/-- Embeds `Snapshot::insert` (`src/snapshot.rs`, lines 35-51) with the Trie
Core's `Node::insert_recurse` plugged in, as in the source. -/
def Snapshot.insert {V : Type} (s : Snapshot V) (key : List Nat) (value : V) :
    Except TrieError Unit × Snapshot V :=
  Snapshot.insertWith Node.insert_recurse s key value

/-- Embeds `Snapshot::get` (`src/snapshot.rs`, lines 54-60): closed check, then a
bounded lookup on the current root.  A `&self` method. -/
def Snapshot.get {V : Type} (s : Snapshot V) (key : List Nat) (ts : Nat) :
    Except TrieError (V × Nat) :=
  match s.is_closed with
  | Except.error e => Except.error e
  | Except.ok _ =>
    (Node.get_recurse s.root key ts).map (fun e => (e.2.1, e.2.2))

/-- Embeds `Snapshot::ts` (`src/snapshot.rs`, lines 63-65): returns the timestamp
recorded on the current root, with no closed check and no error path.
Named `ts_op` because the Rust method shares its name with the `ts` field. -/
def Snapshot.ts_op {V : Type} (s : Snapshot V) : Nat :=
  s.root.ts

/-- Embeds `Snapshot::ts` viewed as a fallible interface operation, to state
claims that compare it with the `Result`-returning operations: since the
source returns a bare `u64`, the operation always succeeds. -/
def Snapshot.tsE {V : Type} (s : Snapshot V) : Except TrieError Nat :=
  Except.ok s.ts_op

/-- Embeds `Snapshot::close` (`src/snapshot.rs`, lines 75-88): closed check, then
the active-reader guard, then the irreversible flag flip. -/
def Snapshot.close {V : Type} (s : Snapshot V) :
    Except TrieError Unit × Snapshot V :=
  match s.is_closed with
  | Except.error e => (Except.error e, s)
  | Except.ok _ =>
    if s.max_active_readers > 0 then
      (Except.error TrieError.SnapshotReadersNotClosed, s)
    else
      (Except.ok (), { s with closed := true })

/-- Embeds `Snapshot::new_reader` (`src/snapshot.rs`, lines 90-97):
`fetch_add(1)` returns the pre-increment counter as the reader id (the
`AtomicU64` wraps modulo `2 ^ 64`), the id is added to the reader set, and
the pointer is bound to the current root. -/
def Snapshot.new_reader {V : Type} (s : Snapshot V) :
    Except TrieError (IterationPointer V) × Snapshot V :=
  match s.is_closed with
  | Except.error e => (Except.error e, s)
  | Except.ok _ =>
    let reader_id := s.max_active_readers
    (Except.ok { root := s.root, id := reader_id },
     { s with readers := Insert.insert reader_id s.readers,
              max_active_readers := (s.max_active_readers + 1) % 2 ^ 64 })

/-- Embeds `Snapshot::active_readers` (`src/snapshot.rs`, lines 99-104): the
current value of the counter.  A `&self` method. -/
def Snapshot.active_readers {V : Type} (s : Snapshot V) : Except TrieError Nat :=
  match s.is_closed with
  | Except.error e => Except.error e
  | Except.ok _ => Except.ok s.max_active_readers

/-- Embeds `Snapshot::close_reader` (`src/snapshot.rs`, lines 106-113): removes
the id from the set without checking membership, and `fetch_sub(1)` on the
counter, which wraps modulo `2 ^ 64` (subtracting `1` mod `2 ^ 64` is
adding `2 ^ 64 - 1`). -/
def Snapshot.close_reader {V : Type} (reader_id : Nat) (s : Snapshot V) :
    Except TrieError Unit × Snapshot V :=
  match s.is_closed with
  | Except.error e => (Except.error e, s)
  | Except.ok _ =>
    (Except.ok (),
     { s with readers := s.readers.erase reader_id,
              max_active_readers := (s.max_active_readers + (2 ^ 64 - 1)) % 2 ^ 64 })

/-- One state-changing operation of the `Snapshot` interface, for stating
properties over arbitrary operation sequences. -/
inductive SnapOp (V : Type) where
  | insert (key : List Nat) (value : V)
  | close
  | new_reader
  | close_reader (reader_id : Nat)
deriving DecidableEq

/-- The state transition of one interface operation (the result value is
discarded, the post-state kept). -/
def Snapshot.applyOp {V : Type} (s : Snapshot V) : SnapOp V → Snapshot V
  | SnapOp.insert k v => (s.insert k v).2
  | SnapOp.close => (s.close).2
  | SnapOp.new_reader => (s.new_reader).2
  | SnapOp.close_reader rid => (s.close_reader rid).2

/-- Running a sequence of interface operations. -/
def Snapshot.runOps {V : Type} (s : Snapshot V) (ops : List (SnapOp V)) : Snapshot V :=
  ops.foldl Snapshot.applyOp s

/-- A reader-bookkeeping operation (the two operations C1 quantifies over). -/
inductive ReaderOp where
  | issue
  | closeR (reader_id : Nat)
deriving DecidableEq

/-- The state transition of a reader operation. -/
def Snapshot.applyReaderOp {V : Type} (s : Snapshot V) : ReaderOp → Snapshot V
  | ReaderOp.issue => (s.new_reader).2
  | ReaderOp.closeR rid => (s.close_reader rid).2

/-- Running a sequence of reader operations. -/
def Snapshot.runReaderOps {V : Type} (s : Snapshot V) (ops : List ReaderOp) : Snapshot V :=
  ops.foldl Snapshot.applyReaderOp s

/-- Number of ids issued by a reader-operation sequence (every `issue` on an
open snapshot succeeds and issues one id). -/
def issuedCount (ops : List ReaderOp) : Nat :=
  (ops.filter (fun o => decide (o = ReaderOp.issue))).length

/-- Number of reader closes in a reader-operation sequence (every
`close_reader` on an open snapshot succeeds). -/
def closedCount (ops : List ReaderOp) : Nat :=
  (ops.filter (fun o => o ≠ ReaderOp.issue)).length

/-- Repeated `insert` through one snapshot (the result of each call is
discarded, the state threaded), for stating C2. -/
def Snapshot.insertMany {V : Type} (s : Snapshot V) (kvs : List (List Nat × V)) :
    Snapshot V :=
  kvs.foldl (fun acc kv => (acc.insert kv.1 kv.2).2) s

/-! Concrete fixtures used by witnesses and counterexamples. -/

/-- An empty node, timestamp 0. -/
def nodeA : Node Nat := { ts := 0, entries := [] }

/-- A node with one entry, timestamp 7. -/
def nodeB : Node Nat := { ts := 7, entries := [([1], 5, 7)] }

/-- A fresh open snapshot over `nodeA`. -/
def snapA : Snapshot Nat := Snapshot.new 0 nodeA 0

/-- A closed snapshot over `nodeB`. -/
def snapB : Snapshot Nat := { Snapshot.new 1 nodeB 7 with closed := true }

/-! Helper lemmas shared between claims. -/

/-- On a closed snapshot every state-changing operation returns early from
the `is_closed` guard and leaves the state untouched. -/
theorem applyOp_of_closed {V : Type} (s : Snapshot V) (op : SnapOp V)
    (h : s.closed = true) : s.applyOp op = s := by
  cases op <;>
    simp [Snapshot.applyOp, Snapshot.insert, Snapshot.insertWith, Snapshot.close,
      Snapshot.new_reader, Snapshot.close_reader, Snapshot.is_closed, h]

/-- Claim C3 — `close()` fails with `SnapshotAlreadyClosed` when the
snapshot is already closed; otherwise it fails with
`SnapshotReadersNotClosed` when the active-reader count is nonzero, leaving
the snapshot open and unchanged; otherwise it succeeds and only sets the
`closed` flag. -/
theorem close_spec {V : Type} (s : Snapshot V) :
    (s.closed = true → s.close = (Except.error TrieError.SnapshotAlreadyClosed, s))
    ∧ (s.closed = false → s.max_active_readers ≠ 0 →
        s.close = (Except.error TrieError.SnapshotReadersNotClosed, s))
    ∧ (s.closed = false → s.max_active_readers = 0 →
        s.close = (Except.ok (), { s with closed := true })) := by
  refine ⟨fun h => ?_, fun h h' => ?_, fun h h' => ?_⟩ <;>
    simp [Snapshot.close, Snapshot.is_closed, h] <;>
    omega

/-- Witness for `close_spec`: a fresh open snapshot with zero readers
closes successfully, setting only the flag. -/
theorem close_spec_witness :
    snapA.closed = false ∧ snapA.max_active_readers = 0 ∧
      snapA.close = (Except.ok (), { snapA with closed := true }) :=
  ⟨rfl, rfl, (close_spec snapA).2.2 rfl rfl⟩

/-- Claim C4 — counterexample: on a concrete closed snapshot, `ts()` does
not return the SnapshotClosed error (it has no error path at all); it
returns the root timestamp, so "every operation of the Snapshot interface"
is too strong. -/
theorem closed_ts_cex :
    snapB.closed = true
    ∧ Snapshot.tsE snapB ≠ Except.error TrieError.SnapshotAlreadyClosed
    ∧ Snapshot.tsE snapB = Except.ok 7 := by
  refine ⟨rfl, ?_, rfl⟩
  simp [Snapshot.tsE]

/-- Claim C4 (amended) — on a closed snapshot every interface operation
except `ts` returns the SnapshotClosed error and leaves the state
unchanged; `ts` performs no closed check and returns the timestamp of the
current root. -/
theorem closed_rejects_all_ops {V : Type} (s : Snapshot V) (key : List Nat)
    (v : V) (ts rid : Nat) (h : s.closed = true) :
    s.insert key v = (Except.error TrieError.SnapshotAlreadyClosed, s)
    ∧ s.get key ts = Except.error TrieError.SnapshotAlreadyClosed
    ∧ s.close = (Except.error TrieError.SnapshotAlreadyClosed, s)
    ∧ s.new_reader = (Except.error TrieError.SnapshotAlreadyClosed, s)
    ∧ s.active_readers = Except.error TrieError.SnapshotAlreadyClosed
    ∧ s.close_reader rid = (Except.error TrieError.SnapshotAlreadyClosed, s)
    ∧ Snapshot.tsE s = Except.ok s.root.ts := by
  simp [Snapshot.insert, Snapshot.insertWith, Snapshot.get, Snapshot.close,
    Snapshot.new_reader, Snapshot.active_readers, Snapshot.close_reader,
    Snapshot.is_closed, Snapshot.tsE, Snapshot.ts_op, h]

/-- Witness for `closed_rejects_all_ops` at a concrete closed snapshot. -/
theorem closed_rejects_all_ops_witness :
    snapB.closed = true
    ∧ snapB.new_reader = (Except.error TrieError.SnapshotAlreadyClosed, snapB) :=
  ⟨rfl, (closed_rejects_all_ops snapB [1] 5 0 0 rfl).2.2.2.1⟩

/-- Claim C10 — `ts()` never fails and performs no closed-state check: it
returns the timestamp recorded on the current root even on a closed
snapshot, and a `close()` call leaves its value unchanged. -/
theorem ts_usable_after_close {V : Type} (s : Snapshot V) :
    Snapshot.tsE s = Except.ok s.root.ts
    ∧ Snapshot.ts_op { s with closed := true } = Snapshot.ts_op s
    ∧ Snapshot.ts_op ((s.close).2) = Snapshot.ts_op s := by
  refine ⟨rfl, rfl, ?_⟩
  by_cases h : s.closed
  · simp [Snapshot.close, Snapshot.is_closed, h]
  · by_cases h2 : s.max_active_readers > 0 <;>
      simp [Snapshot.close, Snapshot.is_closed, h, h2, Snapshot.ts_op]

/-- Running any operation sequence from a closed snapshot keeps it closed. -/
theorem runOps_closed_of_closed {V : Type} (ops : List (SnapOp V)) :
    ∀ s : Snapshot V, s.closed = true → (Snapshot.runOps s ops).closed = true := by
  induction ops with
  | nil => intro s h; simpa [Snapshot.runOps] using h
  | cons op rest ih =>
    intro s h
    have hstep : Snapshot.runOps s (op :: rest)
        = Snapshot.runOps (s.applyOp op) rest := rfl
    rw [hstep, applyOp_of_closed s op h]
    exact ih s h

/-- Claim C8 — closing is irreversible: a successful `close()` sets the
`closed` flag, and once the flag is set every sequence of interface
operations preserves it; no operation ever resets it. -/
theorem closed_is_terminal {V : Type} (s : Snapshot V) (ops : List (SnapOp V)) :
    ((s.close).1 = Except.ok () → ((s.close).2).closed = true)
    ∧ (s.closed = true → (Snapshot.runOps s ops).closed = true) := by
  constructor
  · intro hok
    by_cases hc : s.closed
    · simp [Snapshot.close, Snapshot.is_closed, hc] at hok
    · by_cases h2 : s.max_active_readers > 0
      · simp [Snapshot.close, Snapshot.is_closed, hc, h2] at hok
      · simp [Snapshot.close, Snapshot.is_closed, hc, h2]
  · exact fun h => runOps_closed_of_closed ops s h

/-- Witness for `closed_is_terminal`: the closed fixture stays closed
through a further close, insert, reader issue and reader close. -/
theorem closed_is_terminal_witness :
    snapB.closed = true
    ∧ (Snapshot.runOps snapB
        [SnapOp.close, SnapOp.insert [1] 2, SnapOp.new_reader,
         SnapOp.close_reader 0]).closed = true :=
  ⟨rfl, (closed_is_terminal snapB
    [SnapOp.close, SnapOp.insert [1] 2, SnapOp.new_reader,
     SnapOp.close_reader 0]).2 rfl⟩

/-- Claim C7 — on an open snapshot `close_reader` returns Ok for every id,
issued or not, removes it from the reader set, and decrements the wrapping
u64 counter: at a positive in-range counter this subtracts one, and at
counter 0 it wraps to `2 ^ 64 - 1` instead of reporting an error. -/
theorem close_reader_spec {V : Type} (s : Snapshot V) (rid : Nat)
    (h : s.closed = false) :
    (s.close_reader rid).1 = Except.ok ()
    ∧ ((s.close_reader rid).2).max_active_readers
        = (s.max_active_readers + (2 ^ 64 - 1)) % 2 ^ 64
    ∧ (s.max_active_readers = 0 →
        ((s.close_reader rid).2).max_active_readers = 2 ^ 64 - 1)
    ∧ (0 < s.max_active_readers → s.max_active_readers < 2 ^ 64 →
        ((s.close_reader rid).2).max_active_readers = s.max_active_readers - 1)
    ∧ ((s.close_reader rid).2).readers = s.readers.erase rid := by
  have hM : (2 : Nat) ^ 64 = 18446744073709551616 := by norm_num
  refine ⟨?_, ?_, fun h0 => ?_, fun h1 h2 => ?_, ?_⟩ <;>
    simp [Snapshot.close_reader, Snapshot.is_closed, h] <;>
    rw [hM] at * <;> omega

/-- Witness for `close_reader_spec`: closing a never-issued reader id on a
fresh snapshot succeeds and wraps the zero counter to `2 ^ 64 - 1`. -/
theorem close_reader_spec_witness :
    snapA.closed = false ∧ snapA.max_active_readers = 0
    ∧ (snapA.close_reader 5).1 = Except.ok ()
    ∧ ((snapA.close_reader 5).2).max_active_readers = 2 ^ 64 - 1 :=
  ⟨rfl, rfl, (close_reader_spec snapA 5 rfl).1,
    (close_reader_spec snapA 5 rfl).2.2.1 rfl⟩

/-- Claim C5 — `insert` is all-or-nothing, for every copy-on-write insert
function the snapshot may delegate to: on any error the state is exactly
the input state, and on success the result rebinds only the root field,
leaving ts, readers, the reader counter and the closed flag untouched;
`Snapshot.insert` is the instance at the Trie Core's `Node.insert_recurse`. -/
theorem insert_all_or_nothing {V : Type}
    (f : Node V → List Nat → V → Nat → Nat → Except TrieError (Node V × Option V))
    (s : Snapshot V) (key : List Nat) (v : V) (h : s.closed = false) :
    (∀ e, (Snapshot.insertWith f s key v).1 = Except.error e →
        (Snapshot.insertWith f s key v).2 = s)
    ∧ (∀ n old, f s.root key v s.ts 0 = Except.ok (n, old) →
        Snapshot.insertWith f s key v = (Except.ok (), { s with root := n }))
    ∧ Snapshot.insert s key v = Snapshot.insertWith Node.insert_recurse s key v := by
  refine ⟨?_, ?_, rfl⟩
  · intro e he
    unfold Snapshot.insertWith at *
    simp [Snapshot.is_closed, h] at *
    rcases hf : f s.root key v s.ts 0 with err | ok
    · simp [hf]
    · simp [hf] at he
  · intro n old hf
    unfold Snapshot.insertWith
    simp [Snapshot.is_closed, h, hf]

/-- A copy-on-write insert function that always fails, to exercise the
error branch of `insert_all_or_nothing`. -/
def failingInsert : Node Nat → List Nat → Nat → Nat → Nat →
    Except TrieError (Node Nat × Option Nat) :=
  fun _ _ _ _ _ => Except.error TrieError.KeyNotFound

/-- Witness for `insert_all_or_nothing`: with the always-failing
copy-on-write function the state is untouched, and with the Trie Core's
function the root is rebound and nothing else changes. -/
theorem insert_all_or_nothing_witness :
    snapA.closed = false
    ∧ (Snapshot.insertWith failingInsert snapA [1] 5).2 = snapA
    ∧ Snapshot.insertWith Node.insert_recurse snapA [1] 5
        = (Except.ok (), { snapA with root := { ts := 1, entries := [([1], 5, 1)] } }) :=
  ⟨rfl,
   (insert_all_or_nothing failingInsert snapA [1] 5 rfl).1
     TrieError.KeyNotFound rfl,
   (insert_all_or_nothing Node.insert_recurse snapA [1] 5 rfl).2.1
     { ts := 1, entries := [([1], 5, 1)] } none rfl⟩

/-- An open snapshot whose reader counter sits at `2 ^ 64 - 1` — the state
reached from a fresh snapshot by one unvalidated `close_reader`. -/
def snapWrap : Snapshot Nat :=
  { Snapshot.new 0 nodeA 0 with max_active_readers := 2 ^ 64 - 1 }

/-- Claim C6 — counterexample: on the open snapshot `snapWrap`, reachable
from a fresh snapshot by a single unvalidated `close_reader`, `new_reader`
succeeds but wraps the u64 counter from `2 ^ 64 - 1` to `0`, so the
active-reader count is not incremented by exactly one. -/
theorem new_reader_wrap_cex :
    snapWrap.closed = false
    ∧ ((Snapshot.new 0 nodeA 0).close_reader 3).2.max_active_readers
        = snapWrap.max_active_readers
    ∧ ((snapWrap.new_reader).2).max_active_readers = 0
    ∧ ((snapWrap.new_reader).2).max_active_readers
        ≠ snapWrap.max_active_readers + 1 := by
  refine ⟨rfl, ?_, ?_, ?_⟩ <;>
    simp [Snapshot.new_reader, Snapshot.close_reader, Snapshot.is_closed,
      Snapshot.new, snapWrap, nodeA]

/-- Claim C6 (amended) — on an open snapshot `new_reader` succeeds,
returns a pointer whose id is the current counter value (the next reader
id) and whose root is the snapshot's current root, records the id in the
reader set, and increments the active-reader count by exactly one modulo
`2 ^ 64` (exactly one whenever the counter has room below `2 ^ 64`); on a
closed snapshot it fails with the SnapshotClosed error. -/
theorem new_reader_spec {V : Type} (s : Snapshot V) (h : s.closed = false) :
    (s.new_reader).1 = Except.ok { root := s.root, id := s.max_active_readers }
    ∧ (s.new_reader).2
        = { s with readers := Insert.insert s.max_active_readers s.readers,
                   max_active_readers := (s.max_active_readers + 1) % 2 ^ 64 }
    ∧ (s.max_active_readers + 1 < 2 ^ 64 →
        ((s.new_reader).2).max_active_readers = s.max_active_readers + 1)
    ∧ (∀ t : Snapshot V, t.closed = true →
        t.new_reader = (Except.error TrieError.SnapshotAlreadyClosed, t)) := by
  refine ⟨?_, ?_, fun hlt => ?_, fun t ht => ?_⟩ <;>
    simp [Snapshot.new_reader, Snapshot.is_closed, h]
  · norm_num at hlt
    exact hlt
  · simp [Snapshot.new_reader, Snapshot.is_closed, ht]

/-- Witness for `new_reader_spec`: on a fresh open snapshot the first
reader gets id 0, is bound to the current root, and the count becomes 1. -/
theorem new_reader_spec_witness :
    snapA.closed = false
    ∧ (snapA.new_reader).1 = Except.ok { root := nodeA, id := 0 }
    ∧ ((snapA.new_reader).2).max_active_readers = 0 + 1 :=
  ⟨rfl, (new_reader_spec snapA rfl).1,
   (new_reader_spec snapA rfl).2.2.1 (by decide)⟩

/-- The fresh snapshot after issuing reader id 0. -/
def snapAfterIssue : Snapshot Nat := ((Snapshot.new 0 nodeA 0).new_reader).2

/-- The same snapshot after `close_reader 0` brings the counter back to 0. -/
def snapAfterCycle : Snapshot Nat := (snapAfterIssue.close_reader 0).2

/-- Claim C1 — counterexample: on a fresh snapshot `new_reader` issues id 0;
after `close_reader 0` the very next `new_reader` issues id 0 again, so a
reader id is reused within the snapshot's lifetime after its reader was
closed. -/
theorem reader_id_reuse_cex :
    ((Snapshot.new 0 nodeA 0).new_reader).1 = Except.ok { root := nodeA, id := 0 }
    ∧ snapAfterCycle.max_active_readers = 0
    ∧ (snapAfterCycle.new_reader).1 = Except.ok { root := nodeA, id := 0 } := by
  refine ⟨rfl, ?_, ?_⟩ <;> rfl

/-- Unfolds `issuedCount` over a leading `issue`. -/
theorem issuedCount_cons_issue (rest : List ReaderOp) :
    issuedCount (ReaderOp.issue :: rest) = issuedCount rest + 1 := by
  simp [issuedCount]

/-- Shows `issuedCount` ignores a leading `closeR`. -/
theorem issuedCount_cons_close (rid : Nat) (rest : List ReaderOp) :
    issuedCount (ReaderOp.closeR rid :: rest) = issuedCount rest := by
  simp [issuedCount]

/-- Shows `closedCount` ignores a leading `issue`. -/
theorem closedCount_cons_issue (rest : List ReaderOp) :
    closedCount (ReaderOp.issue :: rest) = closedCount rest := by
  simp [closedCount]

/-- Unfolds `closedCount` over a leading `closeR`. -/
theorem closedCount_cons_close (rid : Nat) (rest : List ReaderOp) :
    closedCount (ReaderOp.closeR rid :: rest) = closedCount rest + 1 := by
  simp [closedCount]

/-- Running reader operations from an open snapshot with an in-range
counter keeps it open, never touches the root, keeps the counter in range,
and leaves the counter congruent to issued minus closed modulo `2 ^ 64`. -/
theorem runReaderOps_state {V : Type} (ops : List ReaderOp) :
    ∀ s : Snapshot V, s.closed = false → s.max_active_readers < 2 ^ 64 →
      (Snapshot.runReaderOps s ops).closed = false
      ∧ (Snapshot.runReaderOps s ops).root = s.root
      ∧ (Snapshot.runReaderOps s ops).max_active_readers < 2 ^ 64
      ∧ ((Snapshot.runReaderOps s ops).max_active_readers : Int)
          = ((s.max_active_readers : Int) + issuedCount ops - closedCount ops)
              % ((2 : Int) ^ 64) := by
  induction ops with
  | nil =>
    intro s h hlt
    refine ⟨h, rfl, hlt, ?_⟩
    have h0 : (0 : Int) ≤ (s.max_active_readers : Int) := Int.ofNat_nonneg _
    have h1 : (s.max_active_readers : Int) < (2 : Int) ^ 64 := by exact_mod_cast hlt
    simpa [Snapshot.runReaderOps, issuedCount, closedCount]
      using (Int.emod_eq_of_lt h0 h1).symm
  | cons op rest ih =>
    intro s h hlt
    have hMpos : (0 : Nat) < 2 ^ 64 := by norm_num
    have e1 : ((2 : Nat) ^ 64) = 18446744073709551616 := by norm_num
    have e2 : ((2 : Int) ^ 64) = 18446744073709551616 := by norm_num
    cases op with
    | issue =>
      have hs' : Snapshot.applyReaderOp s ReaderOp.issue
          = { s with readers := Insert.insert s.max_active_readers s.readers,
                     max_active_readers := (s.max_active_readers + 1) % 2 ^ 64 } := by
        simp [Snapshot.applyReaderOp, Snapshot.new_reader, Snapshot.is_closed, h]
      have hrun : Snapshot.runReaderOps s (ReaderOp.issue :: rest)
          = Snapshot.runReaderOps (Snapshot.applyReaderOp s ReaderOp.issue) rest := rfl
      rw [hrun, hs']
      obtain ⟨hc, hr, hl, hint⟩ :=
        ih { s with readers := Insert.insert s.max_active_readers s.readers,
                    max_active_readers := (s.max_active_readers + 1) % 2 ^ 64 }
          h (Nat.mod_lt _ hMpos)
      refine ⟨hc, hr, hl, ?_⟩
      rw [hint, issuedCount_cons_issue, closedCount_cons_issue]
      show ((((s.max_active_readers + 1) % 2 ^ 64 : Nat) : Int)
          + issuedCount rest - closedCount rest) % ((2 : Int) ^ 64)
        = ((s.max_active_readers : Int) + ((issuedCount rest + 1 : Nat) : Int)
            - closedCount rest) % ((2 : Int) ^ 64)
      rw [e1, e2]
      push_cast
      omega
    | closeR rid =>
      have hs' : Snapshot.applyReaderOp s (ReaderOp.closeR rid)
          = { s with readers := s.readers.erase rid,
                     max_active_readers :=
                       (s.max_active_readers + (2 ^ 64 - 1)) % 2 ^ 64 } := by
        simp [Snapshot.applyReaderOp, Snapshot.close_reader, Snapshot.is_closed, h]
      have hrun : Snapshot.runReaderOps s (ReaderOp.closeR rid :: rest)
          = Snapshot.runReaderOps (Snapshot.applyReaderOp s (ReaderOp.closeR rid)) rest := rfl
      rw [hrun, hs']
      obtain ⟨hc, hr, hl, hint⟩ :=
        ih { s with readers := s.readers.erase rid,
                    max_active_readers :=
                      (s.max_active_readers + (2 ^ 64 - 1)) % 2 ^ 64 }
          h (Nat.mod_lt _ hMpos)
      refine ⟨hc, hr, hl, ?_⟩
      rw [hint, issuedCount_cons_close, closedCount_cons_close]
      show ((((s.max_active_readers + (2 ^ 64 - 1)) % 2 ^ 64 : Nat) : Int)
          + issuedCount rest - closedCount rest) % ((2 : Int) ^ 64)
        = ((s.max_active_readers : Int) + issuedCount rest
            - ((closedCount rest + 1 : Nat) : Int)) % ((2 : Int) ^ 64)
      rw [e1, e2]
      push_cast
      omega

/-- Claim C1 (amended) — along any sequence of reader operations from an
open snapshot with an in-range counter, the active-reader count equals
ids issued minus ids closed modulo `2 ^ 64`, and the id the next
`new_reader` hands out is exactly that count; consequently ids restart
after a `close_reader` (they are not unique for the snapshot's lifetime)
and are strictly increasing from 0 only while no reader is closed. -/
theorem reader_ids_track_count {V : Type} (ops : List ReaderOp)
    (s : Snapshot V) (h : s.closed = false)
    (hlt : s.max_active_readers < 2 ^ 64) :
    ((Snapshot.runReaderOps s ops).max_active_readers : Int)
        = ((s.max_active_readers : Int) + issuedCount ops - closedCount ops)
            % ((2 : Int) ^ 64)
    ∧ (Snapshot.runReaderOps s ops).active_readers
        = Except.ok (Snapshot.runReaderOps s ops).max_active_readers
    ∧ ((Snapshot.runReaderOps s ops).new_reader).1
        = Except.ok { root := s.root,
                      id := (Snapshot.runReaderOps s ops).max_active_readers } := by
  obtain ⟨hc, hr, _, hint⟩ := runReaderOps_state ops s h hlt
  refine ⟨hint, ?_, ?_⟩
  · simp [Snapshot.active_readers, Snapshot.is_closed, hc]
  · simp [Snapshot.new_reader, Snapshot.is_closed, hc, hr]

/-- Witness for `reader_ids_track_count`: issue, close, issue on a fresh
snapshot leaves an active-reader count of 1 (two issued, one closed). -/
theorem reader_ids_track_count_witness :
    snapA.closed = false ∧ snapA.max_active_readers < 2 ^ 64
    ∧ (Snapshot.runReaderOps snapA
        [ReaderOp.issue, ReaderOp.closeR 0, ReaderOp.issue]).active_readers
      = Except.ok 1 := by
  refine ⟨rfl, by decide, ?_⟩
  have h := (reader_ids_track_count
    [ReaderOp.issue, ReaderOp.closeR 0, ReaderOp.issue] snapA rfl (by decide)).2.1
  rw [h]
  congr 1

/-- A successful insert on an open snapshot returns Ok, advances the root
timestamp by exactly one, and keeps the snapshot open. -/
theorem insert_step {V : Type} (s : Snapshot V) (k : List Nat) (v : V)
    (h : s.closed = false) :
    (s.insert k v).1 = Except.ok ()
    ∧ ((s.insert k v).2).ts_op = s.ts_op + 1
    ∧ ((s.insert k v).2).closed = false := by
  simp [Snapshot.insert, Snapshot.insertWith, Snapshot.is_closed, h,
    Node.insert_recurse, Snapshot.ts_op]

/-- Shows `insert` never changes any snapshot field other than the root. -/
theorem insert_frame {V : Type} (s : Snapshot V) (k : List Nat) (v : V) :
    ((s.insert k v).2).ts = s.ts
    ∧ ((s.insert k v).2).readers = s.readers
    ∧ ((s.insert k v).2).max_active_readers = s.max_active_readers
    ∧ ((s.insert k v).2).closed = s.closed
    ∧ ((s.insert k v).2).id = s.id := by
  by_cases h : s.closed = true
  · simp [Snapshot.insert, Snapshot.insertWith, Snapshot.is_closed, h]
  · have h' : s.closed = false := by simpa using h
    simp [Snapshot.insert, Snapshot.insertWith, Snapshot.is_closed, h',
      Node.insert_recurse]

/-- Shows `insertMany` advances the root timestamp by the number of inserts and
keeps the snapshot open. -/
theorem insertMany_ts {V : Type} (kvs : List (List Nat × V)) :
    ∀ s : Snapshot V, s.closed = false →
      (Snapshot.insertMany s kvs).ts_op = s.ts_op + kvs.length
      ∧ (Snapshot.insertMany s kvs).closed = false := by
  induction kvs with
  | nil => intro s h; exact ⟨by simp [Snapshot.insertMany], by simpa [Snapshot.insertMany]⟩
  | cons kv rest ih =>
    intro s h
    have hrun : Snapshot.insertMany s (kv :: rest)
        = Snapshot.insertMany ((s.insert kv.1 kv.2).2) rest := rfl
    obtain ⟨hts, hcl⟩ := ih ((s.insert kv.1 kv.2).2) (insert_step s kv.1 kv.2 h).2.2
    refine ⟨?_, by rwa [hrun]⟩
    rw [hrun, hts, (insert_step s kv.1 kv.2 h).2.1]
    simp [List.length_cons]
    omega

/-- No interface operation ever lowers the root timestamp. -/
theorem applyOp_ts_mono {V : Type} (s : Snapshot V) (op : SnapOp V) :
    s.ts_op ≤ (s.applyOp op).ts_op := by
  by_cases h : s.closed = true
  · rw [applyOp_of_closed s op h]
  · have h' : s.closed = false := by simpa using h
    cases op with
    | insert k v =>
      have hstep := (insert_step s k v h').2.1
      simp only [Snapshot.applyOp]
      omega
    | close =>
      by_cases h2 : s.max_active_readers > 0 <;>
        simp [Snapshot.applyOp, Snapshot.close, Snapshot.is_closed, h', h2,
          Snapshot.ts_op]
    | new_reader =>
      simp [Snapshot.applyOp, Snapshot.new_reader, Snapshot.is_closed, h',
        Snapshot.ts_op]
    | close_reader rid =>
      simp [Snapshot.applyOp, Snapshot.close_reader, Snapshot.is_closed, h',
        Snapshot.ts_op]

/-- Claim C2 — starting from a snapshot created over a root carrying
timestamp `t0`, a sequence of `n` inserts leaves `ts()` at `t0 + n`; each
single insert on an open snapshot succeeds and advances `ts()` by exactly
one, and no interface operation ever decreases `ts()`. -/
theorem ts_counts_inserts {V : Type} (id t0 : Nat) (root : Node V)
    (kvs : List (List Nat × V)) (h : root.ts = t0) :
    (Snapshot.insertMany (Snapshot.new id root t0) kvs).ts_op = t0 + kvs.length
    ∧ (∀ (s : Snapshot V) (k : List Nat) (v : V), s.closed = false →
        (s.insert k v).1 = Except.ok ()
        ∧ ((s.insert k v).2).ts_op = s.ts_op + 1)
    ∧ (∀ (s : Snapshot V) (op : SnapOp V), s.ts_op ≤ (s.applyOp op).ts_op) := by
  refine ⟨?_, fun s k v hs => ⟨(insert_step s k v hs).1, (insert_step s k v hs).2.1⟩,
    fun s op => applyOp_ts_mono s op⟩
  have := (insertMany_ts kvs (Snapshot.new id root t0) rfl).1
  rw [this]
  simp [Snapshot.ts_op, Snapshot.new, h]

/-- Witness for `ts_counts_inserts`: two inserts on a snapshot over the
empty timestamp-0 root leave `ts()` at 2. -/
theorem ts_counts_inserts_witness :
    nodeA.ts = 0
    ∧ (Snapshot.insertMany (Snapshot.new 0 nodeA 0)
        [([1], 5), ([2], 6)]).ts_op = 0 + 2 :=
  ⟨rfl, (ts_counts_inserts 0 0 nodeA [([1], 5), ([2], 6)] rfl).1⟩

/-- Claim C9 — a reader issued before a later successful insert on the
same snapshot is unaffected by it: the pointer is bound to the
creation-time root, the insert succeeds and rebinds only the snapshot's
root field (ts, readers, counter, closed flag and id are untouched), and
the pointer still enumerates exactly the key set of the root it was bound
to at creation. -/
theorem reader_survives_insert {V : Type} (s : Snapshot V)
    (k : List Nat) (v : V) (h : s.closed = false) :
    ∀ (p : IterationPointer V) (s1 : Snapshot V),
      s.new_reader = (Except.ok p, s1) →
        p.root = s.root
        ∧ (s1.insert k v).1 = Except.ok ()
        ∧ ((s1.insert k v).2).ts = s1.ts
        ∧ ((s1.insert k v).2).readers = s1.readers
        ∧ ((s1.insert k v).2).max_active_readers = s1.max_active_readers
        ∧ ((s1.insert k v).2).closed = s1.closed
        ∧ ((s1.insert k v).2).id = s1.id
        ∧ p.keys = s.root.keys := by
  intro p s1 hpr
  have hfst : (s.new_reader).1 = Except.ok p := by rw [hpr]
  have hsnd : (s.new_reader).2 = s1 := by rw [hpr]
  have hval : (s.new_reader).1
      = Except.ok { root := s.root, id := s.max_active_readers } := by
    simp [Snapshot.new_reader, Snapshot.is_closed, h]
  have hp : p = { root := s.root, id := s.max_active_readers } := by
    have := hfst.symm.trans hval
    injection this
  have hs1 : s1.closed = false := by
    rw [← hsnd]
    simp [Snapshot.new_reader, Snapshot.is_closed, h]
  obtain ⟨f1, f2, f3, f4, f5⟩ := insert_frame s1 k v
  exact ⟨by rw [hp], (insert_step s1 k v hs1).1, f1, f2, f3, f4, f5, by rw [hp]; rfl⟩

/-- Witness for `reader_survives_insert`: the first reader of a fresh
snapshot is bound to `nodeA` and enumerates its (empty) key set, before
and after a later insert. -/
theorem reader_survives_insert_witness :
    snapA.closed = false
    ∧ snapA.new_reader = (Except.ok { root := nodeA, id := 0 }, snapAfterIssue)
    ∧ ({ root := nodeA, id := 0 } : IterationPointer Nat).keys = snapA.root.keys :=
  ⟨rfl, rfl,
    (reader_survives_insert snapA [1] 5 rfl { root := nodeA, id := 0 }
      snapAfterIssue rfl).2.2.2.2.2.2.2⟩
